import Mathlib

/-!
Verification of the bounded-concurrency network probe fragments of the
netsuite-windows repository: the port scanner (`src/tools/port_scanner.py`),
the network discovery tool (`src/tools/network_discovery.py`) and the worker
management of the shared base class (`src/tools/base_tool.py`).

The socket layer is modelled by an oracle: each `connect_ex` call is given an
outcome drawn from `ConnectOutcome` (the integer code `connect_ex` returned,
or which exception class it raised).  The cooperative cancellation flag
(`threading.Event`) is modelled as an oracle `stop : Nat → Bool` giving the
value the flag is observed to have at the i-th checkpoint.  All definitions
translate the Python control flow of the cited functions.
-/

namespace NetSuite

/-- Outcome of one `sock.connect_ex((host, port))` call: either the call
returned an integer code (`0` means the connection was established), or it
raised `socket.gaierror` (address resolution failed), or it raised another
`socket.error` (this includes `socket.timeout`, which `connect_ex` does not
convert into a return code). -/
inductive ConnectOutcome where
  | retCode (code : Nat)
  | gaiError
  | sockError
  deriving DecidableEq, Repr

/-- The dictionary `{'open': ..., 'error': ...}` built by
`PortScannerTool._scan_port` (src/tools/port_scanner.py lines 176-193). -/
structure ScanResult where
  isOpen : Bool
  error : Option String
  deriving DecidableEq, Repr

/-- Translation of `PortScannerTool._scan_port` (src/tools/port_scanner.py lines 176-193):
`result['open'] = (connect_ex(...) == 0)`; `socket.gaierror` is recorded as
"Hostname resolution failed", any other `socket.error` as "Could not
connect"; a nonzero `connect_ex` return code leaves `error` at `None`. -/
def scan_port (outcome : ConnectOutcome) : ScanResult :=
  match outcome with
  | .retCode code => { isOpen := code == 0, error := none }
  | .gaiError => { isOpen := false, error := some "Hostname resolution failed" }
  | .sockError => { isOpen := false, error := some "Could not connect" }

/-- The scanning loop of `PortScannerTool._scan_thread`
(src/tools/port_scanner.py lines 139-160): for each port, first the
`stop_event` is checked (the loop breaks when it is set), then the port is
scanned with `_scan_port`, and the port is appended to `open_ports` only when
`result['open']` is true.  `net` gives the connect outcome per port and
`stop i` gives the value of `stop_event.is_set()` observed at the i-th
iteration.  The returned list is the final `open_ports`. -/
def scan_thread (net : Nat → ConnectOutcome) (stop : Nat → Bool) :
    Nat → List Nat → List Nat
  | _, [] => []
  | i, p :: ps =>
    if stop i then []
    else
      let r := scan_port (net p)
      let rest := scan_thread net stop (i + 1) ps
      if r.isOpen then p :: rest else rest

/-- A transport in which every port is closed: `connect_ex` returns the
Windows `WSAECONNREFUSED` code 10061 for every target. -/
def closedNet : Nat → ConnectOutcome := fun _ => .retCode 10061

/-- A cancellation flag that is never set. -/
def neverStop : Nat → Bool := fun _ => false

/-- C1 counterexample: scanning the single closed port 9999 with cancellation
never requested yields an empty result collection — cardinality 0, not 1 —
because `_scan_thread` appends a port to `open_ports` only when the probe
succeeded.  Unreachable targets produce no entry, refuting cardinality
preservation. -/
theorem scan_thread_drops_unreachable :
    (scan_thread closedNet neverStop 0 [9999]).length ≠ ([9999] : List Nat).length := by
  decide

/-- C1 (amended): with cancellation never requested, `_scan_thread` probes the
target list in order and the final `open_ports` collection is exactly the
sublist of targets whose probe reported open, so its cardinality is the number
of reachable targets (not the number of submitted targets). -/
theorem scan_thread_eq_filter_open (net : Nat → ConnectOutcome)
    (stop : Nat → Bool) (h : ∀ i, stop i = false) :
    ∀ (i : Nat) (ports : List Nat),
      scan_thread net stop i ports
        = ports.filter (fun p => (scan_port (net p)).isOpen) ∧
      (scan_thread net stop i ports).length
        = ports.countP (fun p => (scan_port (net p)).isOpen) := by
  have key : ∀ (ports : List Nat) (i : Nat),
      scan_thread net stop i ports
        = ports.filter (fun p => (scan_port (net p)).isOpen) := by
    intro ports
    induction ports with
    | nil => intro i; rfl
    | cons p ps ih =>
      intro i
      simp only [scan_thread, h i, if_false, List.filter_cons, ih (i + 1)]
      by_cases hp : (scan_port (net p)).isOpen <;> simp [hp]
  intro i ports
  refine ⟨key ports i, ?_⟩
  rw [key ports i, List.countP_eq_length_filter]

/-- C1 witness: scanning ports [80, 81] where only 80 answers, with the never-
set flag, returns exactly the open sublist `[80]` of length 1. -/
theorem scan_thread_eq_filter_open_witness :
    scan_thread (fun p => if p = 80 then .retCode 0 else .retCode 10061)
        neverStop 0 [80, 81]
      = [80, 81].filter
          (fun p => (scan_port
            ((fun p => if p = 80 then ConnectOutcome.retCode 0
              else ConnectOutcome.retCode 10061) p)).isOpen) ∧
    (scan_thread (fun p => if p = 80 then .retCode 0 else .retCode 10061)
        neverStop 0 [80, 81]).length
      = [80, 81].countP
          (fun p => (scan_port
            ((fun p => if p = 80 then ConnectOutcome.retCode 0
              else ConnectOutcome.retCode 10061) p)).isOpen) :=
  scan_thread_eq_filter_open _ neverStop (fun _ => rfl) 0 [80, 81]

/-- C2 counterexample: a closed-port probe — `connect_ex` returns the refusal
code 10061 without raising — produces `{'open': False, 'error': None}`: the
reachable flag is false but the error field is `None`, not a
`ConnectionRefused`/`Timeout` classification as the claim requires. -/
theorem scan_port_closed_has_no_error :
    (scan_port (.retCode 10061)).isOpen = false ∧
    (scan_port (.retCode 10061)).error = none := by
  decide

/-- C2 (amended): `_scan_port` distinguishes only two failure classifications —
"Hostname resolution failed" when resolution raised `socket.gaierror` and
"Could not connect" for any other socket error (including timeouts) — and a
probe whose `connect_ex` call returned a nonzero code (e.g. an actively
refused connection) is recorded as not open with `error` left `None`. -/
theorem scan_port_classification :
    (∀ o : ConnectOutcome,
      (scan_port o).error = none ∨
      (scan_port o).error = some "Hostname resolution failed" ∨
      (scan_port o).error = some "Could not connect") ∧
    (scan_port .gaiError).error = some "Hostname resolution failed" ∧
    (scan_port .sockError).error = some "Could not connect" ∧
    (∀ code : Nat, code ≠ 0 →
      scan_port (.retCode code) = { isOpen := false, error := none }) := by
  refine ⟨?_, rfl, rfl, ?_⟩
  · intro o
    cases o with
    | retCode code => exact Or.inl rfl
    | gaiError => exact Or.inr (Or.inl rfl)
    | sockError => exact Or.inr (Or.inr rfl)
  · intro code hc
    simp [scan_port, hc]

/-- C2 (amended) witness: the refusal code 10061 is nonzero, and the probe
result there is not-open with no error recorded. -/
theorem scan_port_classification_witness :
    (10061 : Nat) ≠ 0 ∧
    scan_port (.retCode 10061) = { isOpen := false, error := none } :=
  ⟨by decide, scan_port_classification.2.2.2 10061 (by decide)⟩

/-- Environment of one `NetworkDiscoveryTool._ping_host` call
(src/tools/network_discovery.py lines 190-237): `connect p` is the outcome
of the `connect_ex((ip, p))` attempt for port `p`; `dns` is the result of the
best-effort `socket.gethostbyaddr(ip)` lookup (`none` when the lookup raised);
`icmpReply` tells whether the fallback `ping` subprocess produced a
"Reply from" line (false also covers the subprocess raising). -/
structure PingEnv where
  connect : Nat → ConnectOutcome
  dns : Option String
  icmpReply : Bool

/-- The fixed ordered port list `[80, 443, 22, 445]` tried by `_ping_host`
(src/tools/network_discovery.py line 194). -/
def discoveryPorts : List Nat := [80, 443, 22, 445]

/-- The TCP loop of `_ping_host` (src/tools/network_discovery.py lines
194-214): iterate over the port list; at each iteration the `stop_event` is
checked first (set breaks the loop), then `connect_ex` is attempted; a zero
return code ends the loop with success at that port, any other outcome
(nonzero code or exception, swallowed by `except: pass`) moves to the next
port.  Returns the list of ports actually attempted and the successful port,
if any.  `i` numbers the stop-flag checkpoints. -/
def tryPorts (env : PingEnv) (stop : Nat → Bool) :
    Nat → List Nat → List Nat × Option Nat
  | _, [] => ([], none)
  | i, p :: ps =>
    if stop i then ([], none)
    else
      match env.connect p with
      | .retCode 0 => ([p], some p)
      | _ =>
        let rest := tryPorts env stop (i + 1) ps
        (p :: rest.1, rest.2)

/-- Translation of `NetworkDiscoveryTool._ping_host` (src/tools/network_discovery.py lines
190-237): run the TCP loop over `discoveryPorts`; on success, perform the
best-effort reverse-DNS lookup and append `(ip, hostname)` to the shared
results list, then return.  Otherwise fall through to the ICMP `ping`
subprocess and append `(ip, hostname)` only when its output contains
"Reply from".  The returned list is the sequence of tuples this call appends
to `results`. -/
def ping_host (env : PingEnv) (stop : Nat → Bool) (ip : String) :
    List (String × Option String) :=
  match (tryPorts env stop 0 discoveryPorts).2 with
  | some _ => [(ip, env.dns)]
  | none => if env.icmpReply then [(ip, env.dns)] else []

/-- First port of a list whose connect outcome is a zero return code. -/
def firstOpen (env : PingEnv) (ps : List Nat) : Option Nat :=
  ps.find? (fun p => decide (env.connect p = .retCode 0))

/-- The ports a cancellation-free run of the TCP loop attempts: the given
list up to and including the first port that connects. -/
def takeToFirstOpen (env : PingEnv) : List Nat → List Nat
  | [] => []
  | p :: ps =>
    if env.connect p = .retCode 0 then [p] else p :: takeToFirstOpen env ps

/-- With the stop flag never set, the TCP loop attempts exactly the ports up
to the first success and reports the first open port. -/
theorem tryPorts_no_stop (env : PingEnv) (stop : Nat → Bool)
    (h : ∀ i, stop i = false) :
    ∀ (ps : List Nat) (i : Nat),
      tryPorts env stop i ps = (takeToFirstOpen env ps, firstOpen env ps) := by
  intro ps
  induction ps with
  | nil => intro i; rfl
  | cons p ps ih =>
    intro i
    by_cases hp : env.connect p = .retCode 0
    · simp [tryPorts, h i, hp, takeToFirstOpen, firstOpen, List.find?_cons]
    · have hfind : (p :: ps).find? (fun q => decide (env.connect q = .retCode 0))
          = ps.find? (fun q => decide (env.connect q = .retCode 0)) := by
        simp [List.find?_cons, hp]
      have hmatch :
          tryPorts env stop i (p :: ps)
          = (p :: (tryPorts env stop (i + 1) ps).1,
              (tryPorts env stop (i + 1) ps).2) := by
        simp only [tryPorts, h i, if_false, Bool.false_eq_true]
      rw [hmatch, ih (i + 1)]
      simp [takeToFirstOpen, hp, firstOpen, hfind]

/-- C5: with cancellation never requested, a `_ping_host` probe attempts the
fixed ordered list 80, 443, 22, 445 and nothing beyond the first port that
connects; the host is declared reachable (one tuple published) as soon as one
port connects, and the ICMP fall-through runs only in the case where every
port of the list has failed, which coincides with `firstOpen` being `none`. -/
theorem ping_host_port_policy (env : PingEnv) (stop : Nat → Bool)
    (ip : String) (h : ∀ i, stop i = false) :
    (tryPorts env stop 0 discoveryPorts).1 = takeToFirstOpen env discoveryPorts ∧
    (∀ p, firstOpen env discoveryPorts = some p →
      ping_host env stop ip = [(ip, env.dns)]) ∧
    (firstOpen env discoveryPorts = none →
      ping_host env stop ip = if env.icmpReply then [(ip, env.dns)] else []) ∧
    (firstOpen env discoveryPorts = none ↔
      ∀ p ∈ discoveryPorts, env.connect p ≠ .retCode 0) := by
  have htp := tryPorts_no_stop env stop h discoveryPorts 0
  refine ⟨by rw [htp], ?_, ?_, ?_⟩
  · intro p hfo
    simp [ping_host, htp, hfo]
  · intro hfo
    simp [ping_host, htp, hfo]
  · constructor
    · intro hfo p hp hc
      have := List.find?_eq_none.mp hfo p hp
      simp [hc] at this
    · intro hall
      apply List.find?_eq_none.mpr
      intro p hp
      simp [hall p hp]

/-- C5 witness: a transport where 80 and 443 refuse but 22 answers; the
attempted prefix is `[80, 443, 22]`, the host is reachable, and the
fall-through characterisation holds. -/
theorem ping_host_port_policy_witness :
    (tryPorts ⟨fun p => if p = 22 then .retCode 0 else .retCode 10061,
        some "srv", false⟩ neverStop 0 discoveryPorts).1
      = takeToFirstOpen ⟨fun p => if p = 22 then .retCode 0 else .retCode 10061,
          some "srv", false⟩ discoveryPorts ∧
    (∀ p, firstOpen ⟨fun p => if p = 22 then .retCode 0 else .retCode 10061,
        some "srv", false⟩ discoveryPorts = some p →
      ping_host ⟨fun p => if p = 22 then .retCode 0 else .retCode 10061,
          some "srv", false⟩ neverStop "10.0.0.7"
        = [("10.0.0.7", some "srv")]) ∧
    (firstOpen ⟨fun p => if p = 22 then .retCode 0 else .retCode 10061,
        some "srv", false⟩ discoveryPorts = none →
      ping_host ⟨fun p => if p = 22 then .retCode 0 else .retCode 10061,
          some "srv", false⟩ neverStop "10.0.0.7"
        = if (false : Bool) then [("10.0.0.7", some "srv")] else []) ∧
    (firstOpen ⟨fun p => if p = 22 then .retCode 0 else .retCode 10061,
        some "srv", false⟩ discoveryPorts = none ↔
      ∀ p ∈ discoveryPorts,
        (fun p => if p = 22 then ConnectOutcome.retCode 0
          else ConnectOutcome.retCode 10061) p ≠ .retCode 0) :=
  ping_host_port_policy _ neverStop "10.0.0.7" (fun _ => rfl)

/-- C6: no execution path of `_ping_host` publishes two results for the same
target instance: for every transport, cancellation-flag history and address,
the list of tuples a `_ping_host` call appends to the shared results list has
length at most one (the TCP branch returns right after its single append, and
the ICMP branch appends at most once). -/
theorem ping_host_at_most_one_result (env : PingEnv) (stop : Nat → Bool)
    (ip : String) : (ping_host env stop ip).length ≤ 1 := by
  unfold ping_host
  cases h : (tryPorts env stop 0 discoveryPorts).2 with
  | none =>
    by_cases hicmp : env.icmpReply <;> simp [hicmp]
  | some p => simp

/-- C8: when some discovery port connects, the reverse-DNS lookup outcome `d`
is published verbatim with the reachable host: the tuple `(ip, d)` is appended
whatever `d` is, so a failed lookup (`d = none`) still publishes the host as
reachable, with the resolved name absent. -/
theorem ping_host_dns_best_effort (c : Nat → ConnectOutcome) (d : Option String)
    (icmp : Bool) (stop : Nat → Bool) (ip : String) (p : Nat)
    (h : ∀ i, stop i = false)
    (hopen : firstOpen ⟨c, d, icmp⟩ discoveryPorts = some p) :
    ping_host ⟨c, d, icmp⟩ stop ip = [(ip, d)] := by
  have htp := tryPorts_no_stop ⟨c, d, icmp⟩ stop h discoveryPorts 0
  simp [ping_host, htp, hopen]

/-- C8 witness: port 80 connects, the reverse lookup fails (`none`), and the
host is still published reachable with no resolved name. -/
theorem ping_host_dns_best_effort_witness :
    ping_host ⟨fun _ => .retCode 0, none, false⟩ neverStop "192.168.1.5"
      = [("192.168.1.5", none)] :=
  ping_host_dns_best_effort (fun _ => .retCode 0) none false neverStop
    "192.168.1.5" 80 (fun _ => rfl) (by decide)

/-- The hardcoded thread ceiling `max_threads = 50` of
`NetworkDiscoveryTool._scan_network` (src/tools/network_discovery.py line 136). -/
def max_threads : Nat := 50

/-- State of the dispatch loop of `_scan_network` (src/tools/network_discovery.py
lines 134-161): `threads` is the Python `threads` list, one Bool per entry,
true while that worker thread is alive; `pending` counts the hosts not yet
dispatched. -/
structure DispState where
  threads : List Bool
  pending : Nat
  deriving DecidableEq, Repr

/-- Events of the dispatch loop.  `die` models a worker thread finishing at
any instant.  `prune` models one pass of the throttle body
`threads = [t for t in threads if t.is_alive()]`, which the code runs only
while `len(threads) >= max_threads`.  `spawn` models
`thread.start(); threads.append(thread)`, which the code reaches only once
the throttle loop has exited, i.e. when `len(threads) < max_threads`, and
which consumes one pending host. -/
inductive DispStep (maxT : Nat) : DispState → DispState → Prop
  | die (pre post : List Bool) (pend : Nat) :
      DispStep maxT ⟨pre ++ true :: post, pend⟩ ⟨pre ++ false :: post, pend⟩
  | prune (ts : List Bool) (pend : Nat) (h : maxT ≤ ts.length) :
      DispStep maxT ⟨ts, pend⟩ ⟨ts.filter id, pend⟩
  | spawn (ts : List Bool) (pend : Nat) (hp : 0 < pend)
      (hlen : ts.length < maxT) :
      DispStep maxT ⟨ts, pend⟩ ⟨ts ++ [true], pend - 1⟩

/-- Number of probes in flight: alive entries of the thread list. -/
def countAlive (ts : List Bool) : Nat := ts.count true

/-- Pruning dead threads does not change the number of alive ones. -/
theorem countAlive_filter (ts : List Bool) :
    countAlive (ts.filter id) = countAlive ts := by
  induction ts with
  | nil => rfl
  | cons b ts ih =>
    cases b <;> simp [countAlive, List.filter_cons, List.count_cons] at ih ⊢

/-- Each dispatch-loop event keeps the in-flight count at or below the
ceiling. -/
theorem dispStep_preserves_bound (maxT : Nat) (s t : DispState)
    (hstep : DispStep maxT s t) (hs : countAlive s.threads ≤ maxT) :
    countAlive t.threads ≤ maxT := by
  cases hstep with
  | die pre post pend =>
    simp only [countAlive, List.count_append, List.count_cons] at hs ⊢
    simp at hs ⊢
    omega
  | prune ts pend h =>
    simpa [countAlive_filter] using hs
  | spawn ts pend hp hlen =>
    have hc : ts.count true ≤ ts.length := List.count_le_length true ts
    simp only [countAlive, List.count_append, List.count_cons]
    simp
    omega

/-- C3: for every number of pending hosts, every state the dispatch loop of
`_scan_network` can reach from the initial state (empty thread list) has at
most `max_threads = 50` worker threads alive, i.e. at no instant are more
than 50 probes in flight: the alive count only falls between dispatches, and
a new thread is started only after the throttle has observed fewer than 50
live entries. -/
theorem scan_network_inflight_bound (m : Nat) (s : DispState)
    (hreach : Relation.ReflTransGen (DispStep max_threads) ⟨[], m⟩ s) :
    countAlive s.threads ≤ max_threads := by
  induction hreach with
  | refl => simp [countAlive]
  | tail _ hstep ih => exact dispStep_preserves_bound _ _ _ hstep ih

/-- C3 witness: from 51 pending hosts, dispatching two workers in a row is a
valid trace, and the reached state respects the in-flight ceiling. -/
theorem scan_network_inflight_bound_witness :
    countAlive (⟨[true, true], 49⟩ : DispState).threads ≤ max_threads :=
  scan_network_inflight_bound 51 ⟨[true, true], 49⟩
    (Relation.ReflTransGen.tail
      (Relation.ReflTransGen.tail Relation.ReflTransGen.refl
        (DispStep.spawn [] 51 (by decide) (by decide)))
      (DispStep.spawn [true] 50 (by decide) (by decide)))

/-- The timeout handling shared by `PortScannerTool.run_tool`
(src/tools/port_scanner.py lines 113-116) and
`NetworkDiscoveryTool.run_tool` (src/tools/network_discovery.py lines 95-98):
`float(self.timeout_var.get())` is attempted, and on `ValueError` the code
silently falls back to `timeout = 1.0`.  `parsed` is the parse result
(`none` when `float(...)` raised). -/
def parse_timeout (parsed : Option ℚ) : ℚ :=
  match parsed with
  | some t => t
  | none => 1

/-- C4 counterexample: an unparseable timeout field is silently replaced by
the default 1.0 with no error raised, and a negative timeout such as -5 is
accepted unchanged — the tools neither validate positivity nor report invalid
configuration. -/
theorem parse_timeout_silently_defaults :
    parse_timeout none = 1 ∧ parse_timeout (some (-5)) = -5 := by
  constructor <;> rfl

/-- C4 (amended): the tools perform no validation of the timeout field — any
parsed value, positive or not, is used as supplied, a parse failure silently
becomes the default 1.0 — and the discovery thread ceiling is the constant 50,
never clamped to the number of targets. -/
theorem parse_timeout_no_validation :
    (∀ q : ℚ, parse_timeout (some q) = q) ∧ parse_timeout none = 1 ∧
    max_threads = 50 := by
  exact ⟨fun q => rfl, rfl, rfl⟩

/-- The three scan modes of `PortScannerTool.run_tool`
(src/tools/port_scanner.py line 89). -/
inductive ScanType where
  | common
  | range
  | single
  deriving DecidableEq, Repr

/-- Translation of `PortScannerTool.COMMON_PORTS` (src/tools/port_scanner.py lines 17-20). -/
def COMMON_PORTS : List Int :=
  [21, 22, 23, 25, 53, 80, 110, 143, 443, 445, 993, 995,
   1433, 3306, 3389, 5432, 5900, 6379, 8080, 8443, 8888, 27017]

/-- Python `range(f, t + 1)` over integers. -/
def portRange (f t : Int) : List Int :=
  (List.range (t + 1 - f).toNat).map (fun i : Nat => f + (i : Int))

/-- The port-selection and validation prologue of `PortScannerTool.run_tool`
(src/tools/port_scanner.py lines 89-111).  `portFrom`/`portTo` are the
`int(...)` parse results of the two entry fields (`none` when `int` raised
`ValueError`, which the surrounding `try` turns into the same rejection).
Range mode rejects when `port_from < 1 or port_to > 65535 or
port_from > port_to`; single mode rejects when `port < 1 or port > 65535`.
An `Except.error` models the early `return` after the error message — the
scan thread is never dispatched; `Except.ok` carries the ports that
`_scan_thread` would then probe. -/
def selectPorts (scanType : ScanType) (portFrom portTo : Option Int) :
    Except String (List Int) :=
  match scanType with
  | .common => .ok COMMON_PORTS
  | .range =>
    match portFrom, portTo with
    | some f, some t =>
      if f < 1 ∨ t > 65535 ∨ f > t then .error "Invalid port range. Use 1-65535."
      else .ok (portRange f t)
    | _, _ => .error "Invalid port range. Use 1-65535."
  | .single =>
    match portFrom with
    | some p =>
      if p < 1 ∨ p > 65535 then .error "Invalid port number. Use 1-65535."
      else .ok [p]
    | none => .error "Invalid port number. Use 1-65535."

/-- C7: any range request with an out-of-range bound or an inverted range,
and any single-port request with an out-of-range port, is rejected by
`run_tool` synchronously — `selectPorts` returns the batch-level error and
`run_tool` returns before `run_in_thread` ever dispatches a probe; moreover
every port list that is accepted for probing lies entirely within 1-65535. -/
theorem run_tool_rejects_invalid_ports :
    (∀ f t : Int, (f < 1 ∨ t > 65535 ∨ f > t) →
      selectPorts .range (some f) (some t)
        = .error "Invalid port range. Use 1-65535.") ∧
    (∀ (p : Int) (o : Option Int), (p < 1 ∨ p > 65535) →
      selectPorts .single (some p) o
        = .error "Invalid port number. Use 1-65535.") ∧
    (∀ (f t : Int) (ports : List Int),
      selectPorts .range (some f) (some t) = .ok ports →
      ∀ p ∈ ports, 1 ≤ p ∧ p ≤ 65535) := by
  refine ⟨?_, ?_, ?_⟩
  · intro f t hbad
    simp [selectPorts, hbad]
  · intro p o hbad
    simp [selectPorts, hbad]
  · intro f t ports hok p hp
    simp only [selectPorts] at hok
    by_cases hbad : f < 1 ∨ t > 65535 ∨ f > t
    · simp [hbad] at hok
    · simp only [hbad, if_false] at hok
      push_neg at hbad
      obtain ⟨h1, h2, h3⟩ := hbad
      have hports : ports = portRange f t := by
        cases hok
        rfl
      subst hports
      unfold portRange at hp
      obtain ⟨i, hi, hpi⟩ := List.mem_map.mp hp
      rw [List.mem_range] at hi
      have hi' : (i : Int) < t + 1 - f := by rwa [Int.lt_toNat] at hi
      have hpi' : f + (i : Int) = p := hpi
      omega

/-- C7 witness: the inverted range 5..3 and the out-of-range port 0 are both
rejected with the documented messages, and the accepted range 10..12 yields
only in-range ports. -/
theorem run_tool_rejects_invalid_ports_witness :
    selectPorts .range (some 5) (some 3)
      = .error "Invalid port range. Use 1-65535." ∧
    selectPorts .single (some 0) none
      = .error "Invalid port number. Use 1-65535." ∧
    (∀ p ∈ portRange 10 12, 1 ≤ p ∧ p ≤ 65535) :=
  ⟨run_tool_rejects_invalid_ports.1 5 3 (Or.inr (Or.inr (by decide))),
   run_tool_rejects_invalid_ports.2.1 0 none (Or.inl (by decide)),
   fun p hp =>
     run_tool_rejects_invalid_ports.2.2 10 12 (portRange 10 12) rfl p hp⟩

/-- Translation of `scan_port_multi` (src/tools/port_scanner.py lines 232-243): returns
`(port, connect_ex(...) == 0)`, and `(port, False)` when the attempt raised.
`net` is the transport oracle giving the outcome per (host, port). -/
def scan_port_multi (net : String → Nat → ConnectOutcome) (host : String)
    (port : Nat) : Nat × Bool :=
  match net host port with
  | .retCode code => (port, code == 0)
  | .gaiError => (port, false)
  | .sockError => (port, false)

/-- One batch run: each target probed by `scan_port_multi` against the same
transport oracle; the list order is the scheduling order. -/
def runBatch (net : String → Nat → ConnectOutcome)
    (targets : List (String × Nat)) : List (Nat × Bool) :=
  targets.map (fun t => scan_port_multi net t.1 t.2)

/-- C9: against a transport in which every connect succeeds, every result of
a batch run carries reachability flag true, and probing is a per-target
function of the transport alone: permuting the scheduling order of the
targets permutes the results identically, so two runs of the same batch agree
on their reachability flags up to ordering. -/
theorem runBatch_deterministic (net : String → Nat → ConnectOutcome)
    (targets : List (String × Nat))
    (hnet : ∀ host port, net host port = .retCode 0) :
    (∀ r ∈ runBatch net targets, r.2 = true) ∧
    (∀ targets' : List (String × Nat), targets.Perm targets' →
      (runBatch net targets).Perm (runBatch net targets')) := by
  constructor
  · intro r hr
    simp only [runBatch, List.mem_map] at hr
    obtain ⟨t, _, rfl⟩ := hr
    simp [scan_port_multi, hnet t.1 t.2]
  · intro targets' hperm
    exact hperm.map _

/-- An always-succeeding transport: every `connect_ex` returns 0. -/
def alwaysOpenNet : String → Nat → ConnectOutcome := fun _ _ => .retCode 0

/-- C9 witness: a two-target batch against the always-succeeding transport
has both flags true, and any reordering of the batch permutes the results. -/
theorem runBatch_deterministic_witness :
    (∀ r ∈ runBatch alwaysOpenNet [("h", 80), ("h", 443)], r.2 = true) ∧
    (∀ targets' : List (String × Nat), [("h", 80), ("h", 443)].Perm targets' →
      (runBatch alwaysOpenNet [("h", 80), ("h", 443)]).Perm
        (runBatch alwaysOpenNet targets')) :=
  runBatch_deterministic alwaysOpenNet [("h", 80), ("h", 443)]
    (fun _ _ => rfl)

/-- State of a `BaseTool` instance (src/tools/base_tool.py lines 16-21):
`worker` is `self.worker_thread` (`none` — Python `None` — before any run;
`some alive` once a thread object exists, with `alive` the value
`is_alive()` currently reports), and `stopFlag` is whether
`self.stop_event` is set. -/
structure ToolState where
  worker : Option Bool
  stopFlag : Bool
  deriving DecidableEq, Repr

/-- Translation of `BaseTool.run_in_thread` (src/tools/base_tool.py lines 102-117): when a
worker thread exists and is alive, return `False` immediately; otherwise
clear `stop_event`, start exactly one new (alive) worker thread, and return
`True`.  The result is (returned Bool, new state, number of threads
started). -/
def run_in_thread (s : ToolState) : Bool × ToolState × Nat :=
  if s.worker = some true then (false, s, 0)
  else (true, { worker := some true, stopFlag := false }, 1)

/-- Translation of `BaseTool.stop` (src/tools/base_tool.py lines 119-121): sets the stop
event. -/
def requestStop (s : ToolState) : ToolState :=
  { s with stopFlag := true }

/-- C10: if the current worker thread is alive, `run_in_thread` returns
`False`, starts no thread, and leaves the whole state — the stop flag
included — unchanged; otherwise it returns `True`, starts exactly one thread,
and the new state has the stop flag cleared, so a cancellation requested
during an earlier run (`stop`, which only sets the flag) is never observed by
the later run. -/
theorem run_in_thread_single_worker (s : ToolState) :
    (s.worker = some true → run_in_thread s = (false, s, 0)) ∧
    (s.worker ≠ some true →
      run_in_thread s = (true, { worker := some true, stopFlag := false }, 1)) ∧
    (s.worker ≠ some true →
      run_in_thread (requestStop s)
        = (true, { worker := some true, stopFlag := false }, 1)) := by
  refine ⟨?_, ?_, ?_⟩
  · intro h
    simp [run_in_thread, h]
  · intro h
    simp [run_in_thread, h]
  · intro h
    simp [run_in_thread, requestStop, h]

/-- C10 witness: with an alive worker the call is refused and the set stop
flag survives untouched; with no worker, even after a `stop` request, the
call starts one thread and hands it a cleared stop flag. -/
theorem run_in_thread_single_worker_witness :
    run_in_thread ⟨some true, true⟩ = (false, ⟨some true, true⟩, 0) ∧
    run_in_thread ⟨none, false⟩ = (true, ⟨some true, false⟩, 1) ∧
    run_in_thread (requestStop ⟨none, false⟩)
      = (true, ⟨some true, false⟩, 1) :=
  ⟨(run_in_thread_single_worker ⟨some true, true⟩).1 rfl,
   (run_in_thread_single_worker ⟨none, false⟩).2.1 (by decide),
   (run_in_thread_single_worker ⟨none, false⟩).2.2 (by decide)⟩

end NetSuite
